import Mathlib

/-!
# Owlpole backend — payment pipeline, shallow embedding

This file embeds the payment-driven state-transition pipeline of the
owlpole backend (TypeScript/Express/Mongoose) and proves properties of it.

Modelling conventions:
* Mongo documents are Lean structures; a collection is a `List` of documents,
  in insertion order.  `Model.findOne(filter)` is `List.find?`;
  `doc.save()` / `Model.findOneAndUpdate(filter, upd)` update the first
  document matching the filter (`updateFirst`).
* Status and transaction-type literals are strings, exactly as the source
  compares them (`billingRecord.transactionType === 'PURCHASE'` etc.).
* Machine numbers: credits and amounts are integers/rationals (`Int`/`ℚ`);
  timestamps are `Nat` milliseconds since the Unix epoch, with the server
  clock taken in UTC.
* `crypto.createHmac('sha256', secret).update(body).digest('hex')` is an
  external library primitive; the handler is parametric in a function
  `hmacHex : String → String → String` standing for it.
* JS `a || b` on optional strings treats `undefined` and `""` as falsy
  (`jsOrString`).
* Mongoose schemas are strict by default: a field passed to `create` that is
  not a schema path is stripped and never persisted.  The
  `OnboardingSessionSchema` declares no `planType` path, so `sessionCreate`
  stores `planType = none` regardless of what the caller passes.
* Console output is not program state; the single `console.warn` of the
  webhook handler (missing-session path) is reported in the result's `warns`
  field because it is the only operator-visible signal on that path.
  Nothing persistent records it.
-/

/-- A document of the `Billing` collection (`src/models/Billing.ts`).
`transactionType` and `status` are the raw stored strings. -/
structure BillingRecord where
  userId : Nat
  amount : ℚ
  credits : Option Int
  planType : Option String
  status : String
  transactionType : String
  razorpayOrderId : Option String
  razorpayPaymentId : Option String
deriving Repr, DecidableEq

/-- A document of the `OnboardingSession` collection
(`src/models/OnboardingSession.ts`).  `answers` is the opaque key-value
mapping (`Schema.Types.Mixed`).  `planType` is the value of the (non-schema)
property access `session.planType`: the schema declares no such path, so for
every stored document it is `none`. -/
structure SessionRecord where
  userId : Nat
  answers : List (String × String)
  planType : Option String
  sourceVideoPath : Option String
  sourceAudioPath : Option String
  sourceThumbnailPath : Option String
  razorpayOrderId : String
  razorpayPaymentId : Option String
  status : String
  expiresAt : Nat
deriving Repr, DecidableEq

/-- A document of the `User` collection, restricted to the fields the payment
pipeline reads or writes (`credits`, `paymentStatus`, `onboardingStatus`,
`razorpayId`). -/
structure UserRecord where
  id : Nat
  credits : Option Int
  paymentStatus : Option String
  onboardingStatus : Option String
  razorpayId : Option String
deriving Repr, DecidableEq

/-- A document of the `Twin` collection (`src/models/Twin.ts`), restricted to
the fields the webhook handler writes.  `fidelityScore` is the literal
`98.4`. -/
structure TwinRecord where
  creatorUid : Nat
  name : String
  occupation : String
  personality : String
  voiceDescription : String
  avatarStatus : String
  plan : String
  planExpiresAt : Nat
  sourceVideoPath : Option String
  sourceAudioPath : Option String
  sourceThumbnailPath : Option String
  fidelityScore : ℚ
  brainData : List (String × String)
deriving Repr, DecidableEq

/-- The persistent state touched by the payment pipeline: the four Mongo
collections, each in insertion order. -/
structure DB where
  billings : List BillingRecord
  sessions : List SessionRecord
  users : List UserRecord
  twins : List TwinRecord
deriving Repr, DecidableEq

/-- Update the first element satisfying `p` (Mongoose `doc.save()` /
`findOneAndUpdate`: a single matching document is modified). -/
def updateFirst (p : α → Bool) (f : α → α) : List α → List α
  | [] => []
  | x :: xs => if p x then f x :: xs else x :: updateFirst p f xs

/-- JS `v || d` on an optional string: `undefined` and `""` are falsy. -/
def jsOrString (v : Option String) (d : String) : String :=
  match v with
  | some s => if s = "" then d else s
  | none => d

/-- Milliseconds per civil day. -/
def msPerDay : Nat := 86400000

/-- Civil date (year, month 1..12, day 1..31) of a day count since
1970-01-01 (UTC), for nonnegative day counts.  Standard civil-calendar
conversion. -/
def civilFromDays (z0 : Nat) : Nat × Nat × Nat :=
  let z := z0 + 719468
  let era := z / 146097
  let doe := z % 146097
  let yoe := (doe - doe / 1460 + doe / 36524 - doe / 146096) / 365
  let y := yoe + era * 400
  let doy := doe - (365 * yoe + yoe / 4 - yoe / 100)
  let mp := (5 * doy + 2) / 153
  let d := doy - (153 * mp + 2) / 5 + 1
  let m := if mp < 10 then mp + 3 else mp - 9
  if m ≤ 2 then (y + 1, m, d) else (y, m, d)

/-- Day count since 1970-01-01 (UTC) of a civil date (year ≥ 1970,
month 1..12, day 1..31).  Inverse of `civilFromDays` on valid dates. -/
def daysFromCivil (y m d : Nat) : Nat :=
  let y1 := if m ≤ 2 then y - 1 else y
  let era := y1 / 400
  let yoe := y1 % 400
  let mp := (m + 9) % 12
  let doy := (153 * mp + 2) / 5 + d - 1
  let doe := yoe * 365 + yoe / 4 - yoe / 100 + doy
  era * 146097 + doe - 719468

/-- The plan-expiry computation of the webhook handler
(`paymentController.ts` lines 86-95): `MONTHLY` gives `now` plus 30 days of
milliseconds, `YEARLY` gives `now` plus 365 days of milliseconds, and any
other value (the `AFTERLIFE` comment; also an absent plan type) gives local
midnight of the civil date 100 years after `now`'s civil date
(`new Date(now.getFullYear() + 100, now.getMonth(), now.getDate())`,
taken in UTC). -/
def computePlanExpiry (planType : Option String) (nowMs : Nat) : Nat :=
  if planType = some "MONTHLY" then nowMs + 30 * 24 * 60 * 60 * 1000
  else if planType = some "YEARLY" then nowMs + 365 * 24 * 60 * 60 * 1000
  else
    let c := civilFromDays (nowMs / msPerDay)
    daysFromCivil (c.1 + 100) c.2.1 c.2.2 * msPerDay

/-- Default applied by the Twin schema to the `plan` path when the value
passed to `Twin.create` is `undefined` (`TwinSchema.plan.default`
is `'MONTHLY'`). -/
def twinPlanDefault (p : Option String) : String := p.getD "MONTHLY"

/-- The parsed webhook request: signature header, exact serialized body
(`JSON.stringify(req.body)`), and the body fields the handler reads
(`req.body.event`, `req.body.payload.payment.entity.order_id`,
`req.body.payload.payment.entity.id`). -/
structure WebhookRequest where
  signatureHeader : String
  rawBody : String
  event : String
  orderId : String
  paymentId : String
deriving Repr, DecidableEq

/-- Outcome of one webhook delivery: the HTTP status sent to the provider,
the database after the delivery, and the `console.warn` lines emitted. -/
structure WebhookResult where
  status : Nat
  db : DB
  warns : List String
deriving Repr, DecidableEq

/-- Filter of `Billing.findOne({ razorpayOrderId: orderId, status: 'PENDING' })`. -/
def billingPendingPred (orderId : String) (b : BillingRecord) : Bool :=
  b.razorpayOrderId == some orderId && b.status == "PENDING"

/-- Filter of `OnboardingSession.findOne({ razorpayOrderId: orderId, status: 'PENDING' })`. -/
def sessionPendingPred (orderId : String) (s : SessionRecord) : Bool :=
  s.razorpayOrderId == orderId && s.status == "PENDING"

/-- The Twin document built and created by the PLAN_UPGRADE branch
(`paymentController.ts` lines 97-119): brain fields synthesized from the
session's answers with `||` defaults, `avatarStatus: 'PENDING'`,
`plan: session.planType` (schema default applies when absent),
`fidelityScore: 98.4`, `brainData: session.answers`. -/
def synthesizeTwin (s : SessionRecord) (planExpiresAt : Nat) : TwinRecord :=
  { creatorUid := s.userId
    name := jsOrString (s.answers.lookup "name") "Neural Candidate"
    occupation := jsOrString (s.answers.lookup "occupation") "Digital Intelligence"
    personality := jsOrString (s.answers.lookup "personality") "Analytical and adaptive."
    voiceDescription := jsOrString (s.answers.lookup "voiceDescription") "Clear and resonant."
    avatarStatus := "PENDING"
    plan := twinPlanDefault s.planType
    planExpiresAt := planExpiresAt
    sourceVideoPath := s.sourceVideoPath
    sourceAudioPath := s.sourceAudioPath
    sourceThumbnailPath := s.sourceThumbnailPath
    fidelityScore := 984 / 10
    brainData := s.answers }

/-- `handlePaymentWebhook` (`paymentController.ts` lines 13-167), step by
step in source order.  `hmacHex secret body` stands for the external
`crypto.createHmac('sha256', secret).update(body).digest('hex')`. -/
def handlePaymentWebhook (hmacHex : String → String → String) (secret : String)
    (nowMs : Nat) (req : WebhookRequest) (db : DB) : WebhookResult :=
  let expectedSignature := hmacHex secret req.rawBody
  if req.signatureHeader ≠ expectedSignature then
    { status := 400, db := db, warns := [] }
  else if req.event = "payment.captured" then
    let orderId := req.orderId
    let paymentId := req.paymentId
    let completeBilling : BillingRecord → BillingRecord :=
      fun b => { b with status := "COMPLETED", razorpayPaymentId := some paymentId }
    match db.billings.find? (billingPendingPred orderId) with
    | none => { status := 404, db := db, warns := [] }
    | some billingRecord =>
      if billingRecord.transactionType == "PURCHASE" then
        let billings1 := updateFirst (billingPendingPred orderId) completeBilling db.billings
        let db1 := { db with billings := billings1 }
        let addCredits : UserRecord → UserRecord :=
          fun u => { u with credits := some (u.credits.getD 0 + billingRecord.credits.getD 0) }
        let db2 :=
          match db1.users.find? (fun u => u.id == billingRecord.userId) with
          | some _ =>
            { db1 with users := updateFirst (fun u => u.id == billingRecord.userId) addCredits db1.users }
          | none => db1
        { status := 200, db := db2, warns := [] }
      else if billingRecord.transactionType == "PLAN_UPGRADE" then
        match db.sessions.find? (sessionPendingPred orderId) with
        | some session =>
          let billings1 := updateFirst (billingPendingPred orderId) completeBilling db.billings
          let db1 := { db with billings := billings1 }
          let planExpiresAt := computePlanExpiry session.planType nowMs
          let twin := synthesizeTwin session planExpiresAt
          let db2 := { db1 with twins := db1.twins ++ [twin] }
          let setPaid : UserRecord → UserRecord :=
            fun u => { u with paymentStatus := some "PAID", onboardingStatus := some "COMPLETED", razorpayId := some paymentId }
          let db3 := { db2 with users := updateFirst (fun u => u.id == session.userId) setPaid db2.users }
          let finishSession : SessionRecord → SessionRecord :=
            fun s => { s with status := "PAID", razorpayPaymentId := some paymentId }
          let db4 := { db3 with sessions := updateFirst (sessionPendingPred orderId) finishSession db3.sessions }
          { status := 200, db := db4, warns := [] }
        | none =>
          let billings1 := updateFirst (billingPendingPred orderId) completeBilling db.billings
          let db1 := { db with billings := billings1 }
          { status := 200, db := db1, warns := ["No onboarding session found for order: " ++ orderId] }
      else
        { status := 200, db := db, warns := [] }
  else if req.event = "payment.failed" then
    let failBilling : BillingRecord → BillingRecord := fun b => { b with status := "FAILED" }
    let failSession : SessionRecord → SessionRecord := fun s => { s with status := "FAILED" }
    let billings1 := updateFirst (fun b => b.razorpayOrderId == some req.orderId) failBilling db.billings
    let sessions1 := updateFirst (fun s => s.razorpayOrderId == req.orderId) failSession db.sessions
    { status := 200, db := { db with billings := billings1, sessions := sessions1 }, warns := [] }
  else
    { status := 200, db := db, warns := [] }

/-! ## Billing schema and creation (`src/models/Billing.ts`) -/

/-- `BillingSchema.status.enum`. -/
def billingStatusEnum : List String := ["PENDING", "COMPLETED", "FAILED"]

/-- `BillingSchema.transactionType.enum` — note it does NOT contain
`"PLAN_UPGRADE"`. -/
def billingTransactionTypeEnum : List String := ["PURCHASE", "USAGE", "REFUND"]

/-- `BillingSchema.planType.enum`. -/
def billingPlanTypeEnum : List String := ["MONTHLY", "YEARLY", "AFTERLIFE"]

/-- Index options of a mongoose string path. -/
structure StringFieldOptions where
  required : Bool
  unique : Bool
deriving Repr, DecidableEq

/-- Options of `BillingSchema.razorpayOrderId`: `razorpayOrderId: String` —
a plain optional string path, no unique index. -/
def billingRazorpayOrderIdField : StringFieldOptions :=
  { required := false, unique := false }

/-- Options of `OnboardingSessionSchema.razorpayOrderId`:
`{ type: String, required: true, unique: true }`. -/
def sessionRazorpayOrderIdField : StringFieldOptions :=
  { required := true, unique := true }

/-- The document passed to `Billing.create`. -/
structure BillingCreateInput where
  userId : Nat
  amount : ℚ
  credits : Option Int
  planType : Option String
  status : Option String
  transactionType : Option String
  razorpayOrderId : Option String
deriving Repr, DecidableEq

/-- Mongoose validation of a `Billing` document: enum paths must hold a
listed value when present, `transactionType` is required, `status` defaults
to `'PENDING'`.  No condition relates the document to the rest of the
collection (in particular no uniqueness check on `razorpayOrderId`). -/
def billingValidate (i : BillingCreateInput) : Bool :=
  (match i.planType with
   | some p => billingPlanTypeEnum.contains p
   | none => true) &&
  billingStatusEnum.contains (i.status.getD "PENDING") &&
  (match i.transactionType with
   | some t => billingTransactionTypeEnum.contains t
   | none => false)

/-- `Billing.create`: validate against the schema, apply the `status`
default, append the document.  Fails (rejects the document) only on
validation, never because of an existing record. -/
def billingCreate (db : DB) (i : BillingCreateInput) : Option DB :=
  if billingValidate i then
    let rec0 : BillingRecord :=
      { userId := i.userId
        amount := i.amount
        credits := i.credits
        planType := i.planType
        status := i.status.getD "PENDING"
        transactionType := i.transactionType.getD ""
        razorpayOrderId := i.razorpayOrderId
        razorpayPaymentId := none }
    some { db with billings := db.billings ++ [rec0] }
  else none

/-! ## Onboarding session creation (`initiateOnboarding`, twinController) -/

/-- The document passed to `OnboardingSession.create` by
`initiateOnboarding` (step 3): note the caller passes `planType` although
the session schema declares no such path. -/
structure SessionCreateInput where
  userId : Nat
  answers : List (String × String)
  planType : String
  sourceVideoPath : Option String
  sourceAudioPath : Option String
  sourceThumbnailPath : Option String
  razorpayOrderId : String
deriving Repr, DecidableEq

/-- `OnboardingSession.create` under mongoose's default strict mode: every
schema path of the input is persisted, `status` starts `'PENDING'`,
`expiresAt` defaults to creation time plus 30 minutes — and the `planType`
key is NOT a path of `OnboardingSessionSchema`, so it is stripped: the
stored document's `planType` is `none` whatever the caller passed. -/
def sessionCreate (nowMs : Nat) (i : SessionCreateInput) : SessionRecord :=
  { userId := i.userId
    answers := i.answers
    planType := none
    sourceVideoPath := i.sourceVideoPath
    sourceAudioPath := i.sourceAudioPath
    sourceThumbnailPath := i.sourceThumbnailPath
    razorpayOrderId := i.razorpayOrderId
    razorpayPaymentId := none
    status := "PENDING"
    expiresAt := nowMs + 30 * 60 * 1000 }

/-- Plan types accepted by `initiateOnboarding`'s validation. -/
def validPlanTypes : List String := ["MONTHLY", "YEARLY", "AFTERLIFE"]

/-- `initiateOnboarding` (twinController), restricted to its persistent
effects after the provider order came back: validate the plan type, create
the onboarding session, then create the Billing record — with
`transactionType: 'PURCHASE'`, `amount: razorpayOrder.amount / 100` and no
`credits` field (source step 4). -/
def initiateOnboarding (nowMs : Nat) (userId : Nat)
    (answers : List (String × String)) (planType : String)
    (videoPath audioPath thumbPath : Option String)
    (orderId : String) (orderAmount : ℚ) (db : DB) : Option DB :=
  if validPlanTypes.contains planType then
    let session := sessionCreate nowMs
      { userId := userId, answers := answers, planType := planType
        sourceVideoPath := videoPath, sourceAudioPath := audioPath
        sourceThumbnailPath := thumbPath, razorpayOrderId := orderId }
    let db1 := { db with sessions := db.sessions ++ [session] }
    billingCreate db1
      { userId := userId
        amount := orderAmount / 100
        credits := none
        planType := some planType
        status := some "PENDING"
        transactionType := some "PURCHASE"
        razorpayOrderId := some orderId }
  else none

/-! ## Order service (`src/services/razorpayService.ts`) -/

/-- JS `s.substring(start)` on a string viewed as its character list:
a negative start is clamped to 0. -/
def jsSubstringFrom (s : List Char) (start : Int) : List Char :=
  s.drop (max start 0).toNat

/-- Decimal digit characters of `n`, most significant first, computed with
explicit fuel exactly like `Nat.toDigits` (`Date.now().toString()`). -/
def decimalDigitsCore : Nat → Nat → List Char → List Char
  | 0, _, acc => acc
  | fuel + 1, n, acc =>
    let d := Nat.digitChar (n % 10)
    if n < 10 then d :: acc else decimalDigitsCore fuel (n / 10) (d :: acc)

/-- Decimal representation of `n` as a character list. -/
def decimalDigits (n : Nat) : List Char := decimalDigitsCore (n + 1) n []

/-- The receipt built by both order-creation functions
(`razorpayService.ts`): `tag_shortUserId_timestamp` where `shortUserId` is
`userId.substring(userId.length - 8)` and `timestamp` is
`Date.now().toString().substring(3)`. -/
def makeReceipt (tag : List Char) (userId : List Char) (nowMs : Nat) : List Char :=
  let shortUserId := jsSubstringFrom userId ((userId.length : Int) - 8)
  let timestamp := (decimalDigits nowMs).drop 3
  tag ++ ['_'] ++ shortUserId ++ ['_'] ++ timestamp

/-- Receipt of `createOnboardingOrder`: `onboard_XXXXXXXX_timestamp`. -/
def onboardingReceipt (userId : List Char) (nowMs : Nat) : List Char :=
  makeReceipt "onboard".toList userId nowMs

/-- Receipt of `createCreditPurchaseOrder`: `credits_XXXXXXXX_timestamp`. -/
def creditsReceipt (userId : List Char) (nowMs : Nat) : List Char :=
  makeReceipt "credits".toList userId nowMs

/-- Order amount of `createOnboardingOrder`, already in the smallest
currency unit: `planType === 'YEARLY' ? 79200 : 6900`. -/
def onboardingOrderAmount (planType : String) : Nat :=
  if planType = "YEARLY" then 79200 else 6900

/-- JS `Math.round`: half-up rounding. -/
def jsMathRound (q : ℚ) : Int := ⌊q + 1 / 2⌋

/-- Order amount of `createCreditPurchaseOrder`:
`Math.round(amount * 100)` — dollars to cents. -/
def creditOrderAmountInCents (amount : ℚ) : Int := jsMathRound (amount * 100)

/-! ## Helper lemmas -/

theorem updateFirst_eq_self {α} (p : α → Bool) (f : α → α) :
    ∀ l : List α, (∀ x ∈ l, p x = false) → updateFirst p f l = l := by
  intro l
  induction l with
  | nil => intro _; rfl
  | cons x xs ih =>
    intro h
    have hx : p x = false := h x (List.mem_cons_self x xs)
    rw [updateFirst, if_neg (by simp [hx]), ih (fun y hy => h y (List.mem_cons_of_mem x hy))]

theorem mem_updateFirst_of_find? {α} (p : α → Bool) (f : α → α) :
    ∀ (l : List α) (a : α), l.find? p = some a → f a ∈ updateFirst p f l := by
  intro l
  induction l with
  | nil => intro a h; simp [List.find?] at h
  | cons x xs ih =>
    intro a h
    by_cases hx : p x = true
    · rw [List.find?_cons_of_pos _ hx] at h
      injection h with h
      subst h
      rw [updateFirst, if_pos hx]
      exact List.mem_cons_self _ _
    · rw [List.find?_cons_of_neg _ (by simpa using hx)] at h
      rw [updateFirst, if_neg hx]
      exact List.mem_cons_of_mem x (ih a h)

theorem find?_updateFirst_eq_none {α} (p : α → Bool) (f : α → α)
    (hf : ∀ x, p x = true → p (f x) = false) :
    ∀ l : List α, l.countP p ≤ 1 → (updateFirst p f l).find? p = none := by
  intro l
  induction l with
  | nil => intro _; rfl
  | cons x xs ih =>
    intro hcount
    rw [List.countP_cons] at hcount
    by_cases hx : p x = true
    · rw [updateFirst, if_pos hx]
      rw [List.find?_cons_of_neg _ (by simp [hf x hx])]
      rw [List.find?_eq_none]
      intro y hy
      have h0 : xs.countP p = 0 := by
        rw [if_pos hx] at hcount
        omega
      exact List.countP_eq_zero.mp h0 y hy
    · rw [updateFirst, if_neg hx]
      rw [List.find?_cons_of_neg _ (by simpa using hx)]
      refine ih ?_
      rw [if_neg hx] at hcount
      omega

theorem decimalDigitsCore_length_le :
    ∀ (fuel n : Nat) (acc : List Char) (k : Nat),
      n < fuel → n < 10 ^ k → 1 ≤ k →
      (decimalDigitsCore fuel n acc).length ≤ k + acc.length := by
  intro fuel
  induction fuel with
  | zero => intro n acc k h _ _; exact absurd h (Nat.not_lt_zero n)
  | succ fuel ih =>
    intro n acc k hfuel hk h1
    by_cases hn : n < 10
    · simp only [decimalDigitsCore, if_pos hn, List.length_cons]
      omega
    · simp only [decimalDigitsCore, if_neg hn]
      have hk2 : 2 ≤ k := by
        rcases Nat.lt_or_ge k 2 with h | h
        · exfalso
          have hk1 : k = 1 := by omega
          rw [hk1, pow_one] at hk
          omega
        · exact h
      have hdiv : n / 10 < 10 ^ (k - 1) := by
        rw [Nat.div_lt_iff_lt_mul (by norm_num : (0 : Nat) < 10)]
        calc n < 10 ^ k := hk
          _ = 10 ^ (k - 1) * 10 := by
              conv_lhs => rw [show k = (k - 1) + 1 by omega]
              rw [pow_succ]
      have hfuel2 : n / 10 < fuel := by
        have h2 : n / 10 < n := Nat.div_lt_self (by omega) (by norm_num)
        omega
      have := ih (n / 10) (Nat.digitChar (n % 10) :: acc) (k - 1) hfuel2 hdiv (by omega)
      simp only [List.length_cons] at this
      omega

theorem decimalDigits_length_le (n k : Nat) (hk : n < 10 ^ k) (h1 : 1 ≤ k) :
    (decimalDigits n).length ≤ k := by
  have := decimalDigitsCore_length_le (n + 1) n [] k (by omega) hk h1
  simpa [decimalDigits] using this

theorem shortUserId_length_le (u : List Char) :
    (jsSubstringFrom u ((u.length : Int) - 8)).length ≤ 8 := by
  simp only [jsSubstringFrom, List.length_drop]
  omega

theorem makeReceipt_length (tag userId : List Char) (nowMs : Nat) :
    (makeReceipt tag userId nowMs).length =
      tag.length + 1 + (jsSubstringFrom userId ((userId.length : Int) - 8)).length + 1 +
        ((decimalDigits nowMs).length - 3) := by
  simp only [makeReceipt, List.length_append, List.length_drop, List.length_cons,
    List.length_nil]

/-! ## Shared concrete instances -/

/-- A concrete stand-in for the external HMAC-SHA256-hex primitive, used in
witnesses and concrete runs (the handler theorems are parametric in it). -/
def demoHmac : String → String → String :=
  fun secret body => "hmac-sha256:" ++ secret ++ ":" ++ body

/-- A concrete user document. -/
def demoUser : UserRecord :=
  { id := 7, credits := some 5, paymentStatus := none, onboardingStatus := none,
    razorpayId := none }

/-- A 24-hex-character Mongo ObjectId string, as user ids are. -/
def demoUserId : List Char := "65a1b2c3d4e5f6a7b8c9d0e1".toList

/-- The millisecond timestamp of 2024-01-01T00:00:00Z. -/
def t2024 : Nat := daysFromCivil 2024 1 1 * msPerDay

/-! ## Claim theorems -/

/-- C2: a webhook request whose signature header differs from the
HMAC-SHA256 hex of the exact serialized body under the shared secret is
answered 400 with no state mutation; the conclusion holds uniformly in the
event, payload and database because the signature check precedes all other
logic. -/
theorem webhook_bad_signature_rejected (hmacHex : String → String → String)
    (secret : String) (nowMs : Nat) (req : WebhookRequest) (db : DB)
    (h : req.signatureHeader ≠ hmacHex secret req.rawBody) :
    handlePaymentWebhook hmacHex secret nowMs req db =
      { status := 400, db := db, warns := [] } := by
  simp only [handlePaymentWebhook]
  rw [if_pos h]

/-- C2 witness: a concrete mismatching signature is rejected with 400 and
an unchanged database. -/
theorem webhook_bad_signature_rejected_witness :
    ("deadbeef" ≠ demoHmac "whsec" "BODY") ∧
    handlePaymentWebhook demoHmac "whsec" 0
        { signatureHeader := "deadbeef", rawBody := "BODY",
          event := "payment.captured", orderId := "order_1", paymentId := "pay_1" }
        { billings := [], sessions := [], users := [demoUser], twins := [] } =
      { status := 400,
        db := { billings := [], sessions := [], users := [demoUser], twins := [] },
        warns := [] } :=
  ⟨by decide, webhook_bad_signature_rejected demoHmac "whsec" 0 _ _ (by decide)⟩

/-- C6 counterexample: with now fixed at 2024-01-01, the YEARLY expiry
computed by the webhook handler is 2024-12-31 — 2024 is a leap year and the
source adds exactly 365 days of milliseconds — not 2025-01-01 as claimed. -/
theorem yearly_expiry_2024_counterexample :
    computePlanExpiry (some "YEARLY") t2024 = daysFromCivil 2024 12 31 * msPerDay ∧
    computePlanExpiry (some "YEARLY") t2024 ≠ daysFromCivil 2025 1 1 * msPerDay := by
  decide

/-- C6 (amended): MONTHLY expiry is now plus 30 days and YEARLY is now plus
365 days of milliseconds, AFTERLIFE is the same civil date 100 years on;
with now fixed at 2024-01-01 these give 2024-01-31, 2024-12-31 (not
2025-01-01: leap year) and 2124-01-01. -/
theorem plan_expiry_rules :
    (∀ nowMs, computePlanExpiry (some "MONTHLY") nowMs = nowMs + 30 * msPerDay) ∧
    (∀ nowMs, computePlanExpiry (some "YEARLY") nowMs = nowMs + 365 * msPerDay) ∧
    computePlanExpiry (some "MONTHLY") t2024 = daysFromCivil 2024 1 31 * msPerDay ∧
    computePlanExpiry (some "YEARLY") t2024 = daysFromCivil 2024 12 31 * msPerDay ∧
    computePlanExpiry (some "AFTERLIFE") t2024 = daysFromCivil 2124 1 1 * msPerDay := by
  refine ⟨fun n => ?_, fun n => ?_, by decide, by decide, by decide⟩
  · rw [computePlanExpiry, if_pos rfl]
    norm_num [msPerDay]
  · rw [computePlanExpiry, if_neg (by decide), if_pos rfl]
    norm_num [msPerDay]

/-- C9 counterexample: receipts are not collision-free.  The source drops
the first 3 digits of the millisecond timestamp, so two order-creation
calls for the same user whose timestamps differ by exactly 10^10 ms (about
116 days) produce identical receipts. -/
theorem receipt_collision :
    onboardingReceipt demoUserId 1700000000000 =
      onboardingReceipt demoUserId 1710000000000 ∧
    (1700000000000 : Nat) ≠ 1710000000000 := by decide

/-- C9 (amended): the generated receipt is at most 40 characters (for any
user id and any millisecond timestamp below 10^13, i.e. until the year
2286) and is a deterministic function of the truncated user id and
truncated timestamp; order amounts are integers in the smallest currency
unit — but the truncation does NOT guarantee uniqueness across calls (see
the collision counterexample). -/
theorem receipt_length_le_40 (userId : List Char) (nowMs : Nat)
    (h : nowMs < 10 ^ 13) :
    (onboardingReceipt userId nowMs).length ≤ 40 ∧
    (creditsReceipt userId nowMs).length ≤ 40 ∧
    onboardingOrderAmount "YEARLY" = 79200 ∧
    (∀ planType, planType ≠ "YEARLY" → onboardingOrderAmount planType = 6900) ∧
    creditOrderAmountInCents 15 = 1500 ∧
    creditOrderAmountInCents 45 = 4500 ∧
    creditOrderAmountInCents 99 = 9900 := by
  have hd : (decimalDigits nowMs).length ≤ 13 :=
    decimalDigits_length_le nowMs 13 h (by norm_num)
  have hs := shortUserId_length_le userId
  have h7 : ("onboard".toList : List Char).length = 7 := by decide
  have h7c : ("credits".toList : List Char).length = 7 := by decide
  refine ⟨?_, ?_, by decide, fun p hp => by simp [onboardingOrderAmount, hp],
    by norm_num [creditOrderAmountInCents, jsMathRound],
    by norm_num [creditOrderAmountInCents, jsMathRound],
    by norm_num [creditOrderAmountInCents, jsMathRound]⟩
  · rw [onboardingReceipt, makeReceipt_length, h7]
    omega
  · rw [creditsReceipt, makeReceipt_length, h7c]
    omega

/-- C9 witness: the receipt bound at a concrete user id and timestamp. -/
theorem receipt_length_le_40_witness :
    (1700000000000 : Nat) < 10 ^ 13 ∧
    ((onboardingReceipt demoUserId 1700000000000).length ≤ 40 ∧
     (creditsReceipt demoUserId 1700000000000).length ≤ 40 ∧
     onboardingOrderAmount "YEARLY" = 79200 ∧
     (∀ planType, planType ≠ "YEARLY" → onboardingOrderAmount planType = 6900) ∧
     creditOrderAmountInCents 15 = 1500 ∧
     creditOrderAmountInCents 45 = 4500 ∧
     creditOrderAmountInCents 99 = 9900) :=
  ⟨by norm_num, receipt_length_le_40 demoUserId 1700000000000 (by norm_num)⟩

/-- A COMPLETED billing record for order `order_1` (a credit purchase that
already succeeded). -/
def c3Billing : BillingRecord :=
  { userId := 7, amount := 45, credits := some 75, planType := none,
    status := "COMPLETED", transactionType := "PURCHASE",
    razorpayOrderId := some "order_1", razorpayPaymentId := some "pay_1" }

def c3Db : DB :=
  { billings := [c3Billing], sessions := [], users := [demoUser], twins := [] }

/-- A correctly signed capture-failed event for `order_1`. -/
def c3Req : WebhookRequest :=
  { signatureHeader := demoHmac "whsec" "BODY", rawBody := "BODY",
    event := "payment.failed", orderId := "order_1", paymentId := "pay_1" }

/-- C3 (code bug): the capture-failed path updates the Billing record by
order id with no PENDING guard, so a capture-failed event arriving after
completion moves a COMPLETED record to FAILED — COMPLETED is not terminal
in the code, contrary to the claimed invariant. -/
theorem capture_failed_overwrites_completed :
    c3Db.billings.map BillingRecord.status = ["COMPLETED"] ∧
    (handlePaymentWebhook demoHmac "whsec" 0 c3Req c3Db).status = 200 ∧
    (handlePaymentWebhook demoHmac "whsec" 0 c3Req c3Db).db.billings.map
      BillingRecord.status = ["FAILED"] := by decide

/-- A PENDING billing record of transaction kind PLAN_UPGRADE for order
`order_5` (reachable only as raw stored data: the schema enum would reject
this value — see the C1 theorem). -/
def c5Billing : BillingRecord :=
  { userId := 7, amount := 69, credits := none, planType := some "MONTHLY",
    status := "PENDING", transactionType := "PLAN_UPGRADE",
    razorpayOrderId := some "order_5", razorpayPaymentId := none }

/-- A PAID session for an unrelated order, present to witness that nothing
else in the store changes. -/
def c5OtherSession : SessionRecord :=
  { userId := 9, answers := [], planType := none, sourceVideoPath := none,
    sourceAudioPath := none, sourceThumbnailPath := none,
    razorpayOrderId := "order_other", razorpayPaymentId := some "pay_x",
    status := "PAID", expiresAt := 0 }

def c5Db : DB :=
  { billings := [c5Billing], sessions := [c5OtherSession],
    users := [demoUser], twins := [] }

/-- A correctly signed capture-succeeded event for `order_5`, whose PENDING
session is absent. -/
def c5Req : WebhookRequest :=
  { signatureHeader := demoHmac "whsec" "BODY", rawBody := "BODY",
    event := "payment.captured", orderId := "order_5", paymentId := "pay_5" }

def c5Result : WebhookResult := handlePaymentWebhook demoHmac "whsec" 0 c5Req c5Db

/-- C5 (code bug): when the matching PENDING session is absent, the handler
still completes the Billing record and creates no Twin — but it records no
anomaly anywhere: the only state change is the billing update, and the only
signal is an ephemeral console warning, so the divergence is not surfaced
as a recorded anomaly for manual reconciliation. -/
theorem missing_session_completes_billing_without_anomaly :
    c5Result.status = 200 ∧
    c5Result.db.billings.map BillingRecord.status = ["COMPLETED"] ∧
    c5Result.db.twins = [] ∧
    c5Result.db.sessions = c5Db.sessions ∧
    c5Result.db.users = c5Db.users ∧
    c5Result.db = { c5Db with billings := c5Result.db.billings } ∧
    c5Result.warns = ["No onboarding session found for order: order_5"] := by
  decide

def c1Db0 : DB := { billings := [], sessions := [], users := [demoUser], twins := [] }

/-- The database produced by a full `initiateOnboarding` run purchasing the
AFTERLIFE plan with order `order_9` (some-valued: the plan type
validates). -/
def c1Db1 : Option DB :=
  initiateOnboarding 1000 7 [("name", "Ada")] "AFTERLIFE" none none none
    "order_9" 6900 c1Db0

/-- A correctly signed capture-succeeded event for `order_9`. -/
def c1Req : WebhookRequest :=
  { signatureHeader := demoHmac "whsec" "BODY", rawBody := "BODY",
    event := "payment.captured", orderId := "order_9", paymentId := "pay_9" }

/-- The billing document the onboarding flow would have needed: the same
purchase but with `transactionType: 'PLAN_UPGRADE'` — rejected by the
schema enum. -/
def c1PlanUpgradeDoc : BillingCreateInput :=
  { userId := 7, amount := 69, credits := none, planType := some "AFTERLIFE",
    status := some "PENDING", transactionType := some "PLAN_UPGRADE",
    razorpayOrderId := some "order_9" }

/-- C1 (code bug): `initiateOnboarding` records the onboarding purchase
with `transactionType: 'PURCHASE'`, and the Billing schema enum rejects
`'PLAN_UPGRADE'` outright, so the webhook's Twin-synthesis branch is
unreachable: a captured onboarding payment takes the credit-purchase
branch — the billing completes, the user gains no credits (`credits` is
absent, so zero are added), no Twin is created, and the session stays
PENDING forever. -/
theorem paid_onboarding_creates_no_twin :
    (c1Db1.map fun db1 =>
      (db1.billings.map BillingRecord.transactionType,
       db1.sessions.map SessionRecord.status,
       (handlePaymentWebhook demoHmac "whsec" 2000 c1Req db1).db.twins,
       (handlePaymentWebhook demoHmac "whsec" 2000 c1Req db1).db.sessions.map
         SessionRecord.status,
       (handlePaymentWebhook demoHmac "whsec" 2000 c1Req db1).db.billings.map
         BillingRecord.status,
       (handlePaymentWebhook demoHmac "whsec" 2000 c1Req db1).db.users.map
         UserRecord.credits)) =
      some (["PURCHASE"], ["PENDING"], [], ["PENDING"], ["COMPLETED"], [some 5]) ∧
    billingValidate c1PlanUpgradeDoc = false :=
  ⟨rfl, by decide⟩

def dbEmpty : DB := { billings := [], sessions := [], users := [], twins := [] }

/-- A valid billing-creation input with order id `order_dup`. -/
def c8Doc : BillingCreateInput :=
  { userId := 1, amount := 69, credits := none, planType := some "MONTHLY",
    status := some "PENDING", transactionType := some "PURCHASE",
    razorpayOrderId := some "order_dup" }

/-- The stored record corresponding to `c8Doc`. -/
def c8Record : BillingRecord :=
  { userId := 1, amount := 69, credits := none, planType := some "MONTHLY",
    status := "PENDING", transactionType := "PURCHASE",
    razorpayOrderId := some "order_dup", razorpayPaymentId := none }

/-- C8 counterexample: creating the same billing document twice succeeds
and leaves two records with the same order id — the Billing store does not
enforce order-id uniqueness (`razorpayOrderId` has no unique index). -/
theorem billing_order_id_not_unique :
    ((billingCreate dbEmpty c8Doc).bind fun db1 => billingCreate db1 c8Doc).map
        (fun db2 => db2.billings.countP fun b =>
          b.razorpayOrderId == some "order_dup") = some 2 ∧
    billingRazorpayOrderIdField.unique = false := by decide

/-- C8 (amended): the Billing schema declares `razorpayOrderId` as a plain
optional string with no unique index, and creation succeeds for any valid
document regardless of the existing records, so duplicate order ids are
accepted; the OnboardingSession schema, by contrast, does declare its
`razorpayOrderId` unique. -/
theorem billing_uniqueness_not_enforced (db : DB) (i : BillingCreateInput)
    (h : billingValidate i = true) :
    (billingCreate db i).isSome = true ∧
    billingRazorpayOrderIdField.unique = false ∧
    sessionRazorpayOrderIdField.unique = true := by
  refine ⟨?_, rfl, rfl⟩
  simp [billingCreate, h]

/-- A store already holding a record with order id `order_dup`. -/
def c8DbWithDup : DB :=
  { billings := [c8Record], sessions := [], users := [], twins := [] }

/-- C8 witness: creation succeeds even into a store that already holds a
record with the same order id. -/
theorem billing_uniqueness_not_enforced_witness :
    billingValidate c8Doc = true ∧
    ((billingCreate c8DbWithDup c8Doc).isSome = true ∧
     billingRazorpayOrderIdField.unique = false ∧
     sessionRazorpayOrderIdField.unique = true) :=
  ⟨by decide, billing_uniqueness_not_enforced _ c8Doc (by decide)⟩

/-- C7: a correctly signed capture-failed event marks the first Billing
record matching the order id FAILED and the first matching
OnboardingSession FAILED, touches no user and creates no Twin, and both
updates are no-op-safe: when no record matches, the collection is returned
unchanged and no error is raised (the handler still answers 200). -/
theorem webhook_capture_failed_marks_failed (hmacHex : String → String → String)
    (secret : String) (nowMs : Nat) (req : WebhookRequest) (db : DB)
    (hsig : req.signatureHeader = hmacHex secret req.rawBody)
    (hev : req.event = "payment.failed") :
    (handlePaymentWebhook hmacHex secret nowMs req db).status = 200 ∧
    (handlePaymentWebhook hmacHex secret nowMs req db).db.billings =
      updateFirst (fun b => b.razorpayOrderId == some req.orderId)
        (fun b => { b with status := "FAILED" }) db.billings ∧
    (handlePaymentWebhook hmacHex secret nowMs req db).db.sessions =
      updateFirst (fun s => s.razorpayOrderId == req.orderId)
        (fun s => { s with status := "FAILED" }) db.sessions ∧
    (handlePaymentWebhook hmacHex secret nowMs req db).db.users = db.users ∧
    (handlePaymentWebhook hmacHex secret nowMs req db).db.twins = db.twins ∧
    (∀ b0, db.billings.find? (fun b => b.razorpayOrderId == some req.orderId) = some b0 →
      { b0 with status := "FAILED" } ∈ (handlePaymentWebhook hmacHex secret nowMs req db).db.billings) ∧
    (∀ s0, db.sessions.find? (fun s => s.razorpayOrderId == req.orderId) = some s0 →
      { s0 with status := "FAILED" } ∈ (handlePaymentWebhook hmacHex secret nowMs req db).db.sessions) ∧
    ((∀ b ∈ db.billings, (b.razorpayOrderId == some req.orderId) = false) →
      (handlePaymentWebhook hmacHex secret nowMs req db).db.billings = db.billings) ∧
    ((∀ s ∈ db.sessions, (s.razorpayOrderId == req.orderId) = false) →
      (handlePaymentWebhook hmacHex secret nowMs req db).db.sessions = db.sessions) := by
  have hr : handlePaymentWebhook hmacHex secret nowMs req db =
      { status := 200,
        db := { db with
                billings := updateFirst (fun b => b.razorpayOrderId == some req.orderId)
                  (fun b => { b with status := "FAILED" }) db.billings,
                sessions := updateFirst (fun s => s.razorpayOrderId == req.orderId)
                  (fun s => { s with status := "FAILED" }) db.sessions },
        warns := [] } := by
    simp only [handlePaymentWebhook]
    rw [if_neg (by simp [hsig]), if_neg (by simp [hev]), if_pos hev]
  rw [hr]
  refine ⟨rfl, rfl, rfl, rfl, rfl, ?_, ?_, ?_, ?_⟩
  · intro b0 hb
    exact mem_updateFirst_of_find? _ _ db.billings b0 hb
  · intro s0 hs
    exact mem_updateFirst_of_find? _ _ db.sessions s0 hs
  · intro hnone
    exact updateFirst_eq_self _ _ db.billings hnone
  · intro hnone
    exact updateFirst_eq_self _ _ db.sessions hnone

/-- C4: delivering the same correctly signed capture-succeeded event twice
for an order id held by a single PENDING PURCHASE billing record completes
that record exactly once and increments the user's credits exactly once, by
the purchase's credit count; the second delivery finds no PENDING record,
answers 404 and performs no state mutation. -/
theorem webhook_capture_succeeded_idempotent
    (hmacHex : String → String → String) (secret : String) (nowMs : Nat)
    (req : WebhookRequest) (db : DB) (b : BillingRecord) (u : UserRecord)
    (hsig : req.signatureHeader = hmacHex secret req.rawBody)
    (hev : req.event = "payment.captured")
    (hfind : db.billings.find? (billingPendingPred req.orderId) = some b)
    (hcount : db.billings.countP (billingPendingPred req.orderId) ≤ 1)
    (htype : b.transactionType = "PURCHASE")
    (huser : db.users.find? (fun v => v.id == b.userId) = some u) :
    (handlePaymentWebhook hmacHex secret nowMs req db).status = 200 ∧
    (handlePaymentWebhook hmacHex secret nowMs req db).db.billings =
      updateFirst (billingPendingPred req.orderId)
        (fun x => { x with status := "COMPLETED", razorpayPaymentId := some req.paymentId })
        db.billings ∧
    { b with status := "COMPLETED", razorpayPaymentId := some req.paymentId } ∈
      (handlePaymentWebhook hmacHex secret nowMs req db).db.billings ∧
    (handlePaymentWebhook hmacHex secret nowMs req db).db.users =
      updateFirst (fun v => v.id == b.userId)
        (fun v => { v with credits := some (v.credits.getD 0 + b.credits.getD 0) })
        db.users ∧
    { u with credits := some (u.credits.getD 0 + b.credits.getD 0) } ∈
      (handlePaymentWebhook hmacHex secret nowMs req db).db.users ∧
    (handlePaymentWebhook hmacHex secret nowMs req db).db.sessions = db.sessions ∧
    (handlePaymentWebhook hmacHex secret nowMs req db).db.twins = db.twins ∧
    (handlePaymentWebhook hmacHex secret nowMs req
        (handlePaymentWebhook hmacHex secret nowMs req db).db).status = 404 ∧
    (handlePaymentWebhook hmacHex secret nowMs req
        (handlePaymentWebhook hmacHex secret nowMs req db).db).db =
      (handlePaymentWebhook hmacHex secret nowMs req db).db := by
  have hr : handlePaymentWebhook hmacHex secret nowMs req db =
      { status := 200,
        db := { db with
                billings := updateFirst (billingPendingPred req.orderId)
                  (fun x => { x with status := "COMPLETED", razorpayPaymentId := some req.paymentId })
                  db.billings,
                users := updateFirst (fun v => v.id == b.userId)
                  (fun v => { v with credits := some (v.credits.getD 0 + b.credits.getD 0) })
                  db.users },
        warns := [] } := by
    simp only [handlePaymentWebhook]
    rw [if_neg (by simp [hsig]), if_pos hev, hfind]
    simp only [htype]
    rw [if_pos (by decide)]
    rw [huser]
  have hnone : (updateFirst (billingPendingPred req.orderId)
      (fun x => { x with status := "COMPLETED", razorpayPaymentId := some req.paymentId })
      db.billings).find? (billingPendingPred req.orderId) = none := by
    refine find?_updateFirst_eq_none _ _ ?_ db.billings hcount
    intro x hx
    simp [billingPendingPred]
  have h404 : ∀ db0 : DB,
      db0.billings.find? (billingPendingPred req.orderId) = none →
      handlePaymentWebhook hmacHex secret nowMs req db0 =
        { status := 404, db := db0, warns := [] } := by
    intro db0 hn
    simp only [handlePaymentWebhook]
    rw [if_neg (by simp [hsig]), if_pos hev, hn]
  have hsecond : handlePaymentWebhook hmacHex secret nowMs req
        (handlePaymentWebhook hmacHex secret nowMs req db).db =
      { status := 404, db := (handlePaymentWebhook hmacHex secret nowMs req db).db,
        warns := [] } := by
    rw [hr]
    exact h404 _ hnone
  rw [hsecond, hr]
  refine ⟨rfl, rfl, ?_, rfl, ?_, rfl, rfl, rfl, rfl⟩
  · exact mem_updateFirst_of_find? _ _ db.billings b hfind
  · exact mem_updateFirst_of_find? _ _ db.users u huser

/-- C10: a stored onboarding session never carries a plan type —
`OnboardingSessionSchema` declares no such path, so strict mode strips the
`planType` key `initiateOnboarding` passes — and therefore, whatever plan
was purchased, the webhook's PLAN_UPGRADE branch computes the expiry
through its final (AFTERLIFE) branch and the created Twin's plan falls back
to the schema default MONTHLY. -/
theorem plan_upgrade_ignores_purchased_plan
    (hmacHex : String → String → String) (secret : String)
    (nowSession nowMs : Nat) (i : SessionCreateInput)
    (req : WebhookRequest) (db : DB) (b : BillingRecord)
    (hsig : req.signatureHeader = hmacHex secret req.rawBody)
    (hev : req.event = "payment.captured")
    (hfind : db.billings.find? (billingPendingPred req.orderId) = some b)
    (htype : b.transactionType = "PLAN_UPGRADE")
    (hsess : db.sessions.find? (sessionPendingPred req.orderId) =
      some (sessionCreate nowSession i)) :
    (sessionCreate nowSession i).planType = none ∧
    (handlePaymentWebhook hmacHex secret nowMs req db).db.twins =
      db.twins ++ [synthesizeTwin (sessionCreate nowSession i)
        (computePlanExpiry none nowMs)] ∧
    (synthesizeTwin (sessionCreate nowSession i)
      (computePlanExpiry none nowMs)).plan = "MONTHLY" ∧
    computePlanExpiry none nowMs = computePlanExpiry (some "AFTERLIFE") nowMs := by
  refine ⟨rfl, ?_, rfl, by simp [computePlanExpiry]⟩
  simp only [handlePaymentWebhook]
  rw [if_neg (by simp [hsig]), if_pos hev, hfind]
  simp only [htype]
  rw [if_neg (by decide), if_pos (by decide), hsess]
  rfl

def c7Billing : BillingRecord :=
  { userId := 7, amount := 69, credits := none, planType := some "MONTHLY",
    status := "PENDING", transactionType := "PURCHASE",
    razorpayOrderId := some "order_7", razorpayPaymentId := none }

def c7Session : SessionRecord :=
  { userId := 7, answers := [], planType := none, sourceVideoPath := none,
    sourceAudioPath := none, sourceThumbnailPath := none,
    razorpayOrderId := "order_7", razorpayPaymentId := none,
    status := "PENDING", expiresAt := 0 }

def c7Db : DB :=
  { billings := [c7Billing], sessions := [c7Session], users := [demoUser], twins := [] }

def c7Req : WebhookRequest :=
  { signatureHeader := demoHmac "whsec" "BODY", rawBody := "BODY",
    event := "payment.failed", orderId := "order_7", paymentId := "pay_7" }

/-- C7 witness: the capture-failed behaviour at a concrete database holding
one PENDING billing record and one PENDING session. -/
theorem webhook_capture_failed_marks_failed_witness :
    (c7Req.signatureHeader = demoHmac "whsec" c7Req.rawBody) ∧
    (c7Req.event = "payment.failed") ∧
    ((handlePaymentWebhook demoHmac "whsec" 0 c7Req c7Db).status = 200 ∧
     (handlePaymentWebhook demoHmac "whsec" 0 c7Req c7Db).db.billings =
       updateFirst (fun b => b.razorpayOrderId == some c7Req.orderId)
         (fun b => { b with status := "FAILED" }) c7Db.billings ∧
     (handlePaymentWebhook demoHmac "whsec" 0 c7Req c7Db).db.sessions =
       updateFirst (fun s => s.razorpayOrderId == c7Req.orderId)
         (fun s => { s with status := "FAILED" }) c7Db.sessions ∧
     (handlePaymentWebhook demoHmac "whsec" 0 c7Req c7Db).db.users = c7Db.users ∧
     (handlePaymentWebhook demoHmac "whsec" 0 c7Req c7Db).db.twins = c7Db.twins ∧
     (∀ b0, c7Db.billings.find? (fun b => b.razorpayOrderId == some c7Req.orderId) = some b0 →
       { b0 with status := "FAILED" } ∈ (handlePaymentWebhook demoHmac "whsec" 0 c7Req c7Db).db.billings) ∧
     (∀ s0, c7Db.sessions.find? (fun s => s.razorpayOrderId == c7Req.orderId) = some s0 →
       { s0 with status := "FAILED" } ∈ (handlePaymentWebhook demoHmac "whsec" 0 c7Req c7Db).db.sessions) ∧
     ((∀ b ∈ c7Db.billings, (b.razorpayOrderId == some c7Req.orderId) = false) →
       (handlePaymentWebhook demoHmac "whsec" 0 c7Req c7Db).db.billings = c7Db.billings) ∧
     ((∀ s ∈ c7Db.sessions, (s.razorpayOrderId == c7Req.orderId) = false) →
       (handlePaymentWebhook demoHmac "whsec" 0 c7Req c7Db).db.sessions = c7Db.sessions)) :=
  ⟨rfl, rfl, webhook_capture_failed_marks_failed demoHmac "whsec" 0 c7Req c7Db rfl rfl⟩

def c4Billing : BillingRecord :=
  { userId := 7, amount := 45, credits := some 75, planType := none,
    status := "PENDING", transactionType := "PURCHASE",
    razorpayOrderId := some "order_4", razorpayPaymentId := none }

def c4Db : DB :=
  { billings := [c4Billing], sessions := [], users := [demoUser], twins := [] }

def c4Req : WebhookRequest :=
  { signatureHeader := demoHmac "whsec" "BODY", rawBody := "BODY",
    event := "payment.captured", orderId := "order_4", paymentId := "pay_4" }

/-- C4 witness: the double-delivery behaviour at a concrete database with
one PENDING credit purchase of 75 credits. -/
theorem webhook_capture_succeeded_idempotent_witness :
    (c4Req.signatureHeader = demoHmac "whsec" c4Req.rawBody) ∧
    (c4Req.event = "payment.captured") ∧
    (c4Db.billings.find? (billingPendingPred c4Req.orderId) = some c4Billing) ∧
    (c4Db.billings.countP (billingPendingPred c4Req.orderId) ≤ 1) ∧
    (c4Billing.transactionType = "PURCHASE") ∧
    (c4Db.users.find? (fun v => v.id == c4Billing.userId) = some demoUser) ∧
    ((handlePaymentWebhook demoHmac "whsec" 0 c4Req c4Db).status = 200 ∧
     (handlePaymentWebhook demoHmac "whsec" 0 c4Req c4Db).db.billings =
       updateFirst (billingPendingPred c4Req.orderId)
         (fun x => { x with status := "COMPLETED", razorpayPaymentId := some c4Req.paymentId })
         c4Db.billings ∧
     { c4Billing with status := "COMPLETED", razorpayPaymentId := some c4Req.paymentId } ∈
       (handlePaymentWebhook demoHmac "whsec" 0 c4Req c4Db).db.billings ∧
     (handlePaymentWebhook demoHmac "whsec" 0 c4Req c4Db).db.users =
       updateFirst (fun v => v.id == c4Billing.userId)
         (fun v => { v with credits := some (v.credits.getD 0 + c4Billing.credits.getD 0) })
         c4Db.users ∧
     { demoUser with credits := some (demoUser.credits.getD 0 + c4Billing.credits.getD 0) } ∈
       (handlePaymentWebhook demoHmac "whsec" 0 c4Req c4Db).db.users ∧
     (handlePaymentWebhook demoHmac "whsec" 0 c4Req c4Db).db.sessions = c4Db.sessions ∧
     (handlePaymentWebhook demoHmac "whsec" 0 c4Req c4Db).db.twins = c4Db.twins ∧
     (handlePaymentWebhook demoHmac "whsec" 0 c4Req
         (handlePaymentWebhook demoHmac "whsec" 0 c4Req c4Db).db).status = 404 ∧
     (handlePaymentWebhook demoHmac "whsec" 0 c4Req
         (handlePaymentWebhook demoHmac "whsec" 0 c4Req c4Db).db).db =
       (handlePaymentWebhook demoHmac "whsec" 0 c4Req c4Db).db) :=
  ⟨rfl, rfl, rfl, by decide, rfl, rfl,
    webhook_capture_succeeded_idempotent demoHmac "whsec" 0 c4Req c4Db c4Billing demoUser
      rfl rfl rfl (by decide) rfl rfl⟩

def c10Input : SessionCreateInput :=
  { userId := 7, answers := [("name", "Ada")], planType := "YEARLY",
    sourceVideoPath := none, sourceAudioPath := none,
    sourceThumbnailPath := none, razorpayOrderId := "order_10" }

def c10Billing : BillingRecord :=
  { userId := 7, amount := 792, credits := none, planType := some "YEARLY",
    status := "PENDING", transactionType := "PLAN_UPGRADE",
    razorpayOrderId := some "order_10", razorpayPaymentId := none }

def c10Db : DB :=
  { billings := [c10Billing], sessions := [sessionCreate 500 c10Input],
    users := [demoUser], twins := [] }

def c10Req : WebhookRequest :=
  { signatureHeader := demoHmac "whsec" "BODY", rawBody := "BODY",
    event := "payment.captured", orderId := "order_10", paymentId := "pay_10" }

/-- C10 witness: a YEARLY purchase whose stored session lost the plan type;
the created Twin still gets plan MONTHLY and a 100-year expiry. -/
theorem plan_upgrade_ignores_purchased_plan_witness :
    (c10Req.signatureHeader = demoHmac "whsec" c10Req.rawBody) ∧
    (c10Req.event = "payment.captured") ∧
    (c10Db.billings.find? (billingPendingPred c10Req.orderId) = some c10Billing) ∧
    (c10Billing.transactionType = "PLAN_UPGRADE") ∧
    (c10Db.sessions.find? (sessionPendingPred c10Req.orderId) =
      some (sessionCreate 500 c10Input)) ∧
    ((sessionCreate 500 c10Input).planType = none ∧
     (handlePaymentWebhook demoHmac "whsec" t2024 c10Req c10Db).db.twins =
       c10Db.twins ++ [synthesizeTwin (sessionCreate 500 c10Input)
         (computePlanExpiry none t2024)] ∧
     (synthesizeTwin (sessionCreate 500 c10Input)
       (computePlanExpiry none t2024)).plan = "MONTHLY" ∧
     computePlanExpiry none t2024 = computePlanExpiry (some "AFTERLIFE") t2024) :=
  ⟨rfl, rfl, rfl, rfl, rfl,
    plan_upgrade_ignores_purchased_plan demoHmac "whsec" 500 t2024 c10Input c10Req
      c10Db c10Billing rfl rfl rfl rfl rfl⟩
